import Mathlib

/-!
Verification of the A.T.L.A.S. trading bot risk-gated decision engine.

Shallow embedding of the JavaScript source modules:
* `RiskMap`     — riskmap-ia.js (stateful circuit breakers: loss streak, drawdown)
* `RiskAssess`  — riskmap-ia.js refactored (pure pre-trade gate `assessRisk`)
* `SignalRank`  — signalrank-ia.js refactored (`getFinalScore` fusion/scoring)
* `ExecIA`      — exec-ia.js refactored (`placeTrade`, `removeTrade`)
* `CompoundLogic` — compound-logic.js (`calculateStake`, with an explicit
  IEEE-style NaN/Infinity model since the claims hinge on NaN propagation)
* `Automation`  — atlas-automation.js (phase loop / error propagation skeleton)

JavaScript numbers are modelled as exact rationals (`ℚ`) except in
`CompoundLogic`, where NaN behaviour is the point of the claim and a dedicated
`JsNum` type mirrors IEEE comparison/min/max/round semantics.  Timestamps are
rationals counting milliseconds since the epoch (`Date.now()`).
-/

namespace RiskMap

/-- Mirror of the module-level `state` object of riskmap-ia.js
(Kamikaze Rip variant).  `lastUpdate` is a save-time log stamp with no
read-back influence and is omitted. `pauseUntil` is an ISO string or `null`
in the source; modelled as `Option ℚ` (epoch milliseconds). -/
structure RiskState where
  isPaused : Bool
  lossesInRow : Nat
  tradeCount : Nat
  maxLossStreak : Nat
  pauseUntil : Option ℚ
  balance : ℚ
  initialBalance : ℚ
  maxDrawdown : ℚ
  maxDrawdownPercent : ℚ
  deriving DecidableEq, Repr

/-- Initial module state (`let state = {...}` in riskmap-ia.js). -/
def initialRiskState : RiskState :=
  { isPaused := false
    lossesInRow := 0
    tradeCount := 0
    maxLossStreak := 0
    pauseUntil := none
    balance := 0
    initialBalance := 0
    maxDrawdown := 0
    maxDrawdownPercent := 0 }

/-- `config.MAX_LOSS_STREAK = 3` in riskmap-ia.js. -/
def MAX_LOSS_STREAK : Nat := 3

/-- `config.PAUSE_DURATION = 15` (minutes) in riskmap-ia.js. -/
def PAUSE_DURATION : ℚ := 15

/-- `config.MAX_DRAWDOWN_PERCENT = 0.20` in riskmap-ia.js. -/
def MAX_DRAWDOWN_PERCENT : ℚ := 1/5

/-- `initBalance(initialBalance)` of riskmap-ia.js: sets both `balance` and
`initialBalance`. -/
def initBalance (b : ℚ) (s : RiskState) : RiskState :=
  { s with balance := b, initialBalance := b }

/-- `updateBalance(newBalance)` of riskmap-ia.js.  Note the source computes
`drawdown = previousBalance - newBalance` (the drop relative to the
immediately preceding balance, not to a high-water mark) and
`drawdownPercent = drawdown / state.initialBalance`.  `now` is the value of
`Date.now()` at the call.  Division is exact on `ℚ`; the (never-initialised)
`initialBalance = 0` corner, where JS would produce ±Infinity/NaN, is outside
every claim considered here, which all assume `initialBalance > 0`. -/
def updateBalance (now newBalance : ℚ) (s : RiskState) : RiskState :=
  let previousBalance := s.balance
  let drawdown := previousBalance - newBalance
  let drawdownPercent := drawdown / s.initialBalance
  let s1 := { s with balance := newBalance }
  let s2 :=
    if drawdown > s1.maxDrawdown then
      { s1 with maxDrawdown := drawdown, maxDrawdownPercent := drawdownPercent }
    else s1
  if drawdownPercent > MAX_DRAWDOWN_PERCENT then
    { s2 with isPaused := true, pauseUntil := some (now + 3600000) }
  else s2

/-- `registerTrade(result)` of riskmap-ia.js.  `now` is `Date.now()` at the
call.  Any `result` other than the string "loss" takes the `else` branch. -/
def registerTrade (now : ℚ) (result : String) (s : RiskState) : RiskState :=
  let s1 := { s with tradeCount := s.tradeCount + 1 }
  if result = "loss" then
    let s2 := { s1 with lossesInRow := s1.lossesInRow + 1 }
    let s3 :=
      if s2.lossesInRow > s2.maxLossStreak then
        { s2 with maxLossStreak := s2.lossesInRow }
      else s2
    if s3.lossesInRow ≥ MAX_LOSS_STREAK then
      { s3 with isPaused := true, pauseUntil := some (now + PAUSE_DURATION * 60000) }
    else s3
  else
    { s1 with lossesInRow := 0 }

/-- `checkStatus()` of riskmap-ia.js, as a state transition (the source
mutates the module state and then returns a read-only projection of it).
`new Date(state.pauseUntil)` with `pauseUntil = null` is the epoch, hence
`Option.getD 0`. -/
def checkStatus (now : ℚ) (s : RiskState) : RiskState :=
  if s.isPaused then
    if now ≥ s.pauseUntil.getD 0 then
      { s with isPaused := false, pauseUntil := none, lossesInRow := 0 }
    else s
  else s

end RiskMap

namespace RiskAssess

/-- One entry of the `upcomingEvents` array consumed by `assessRisk`
(riskmap-ia.js, refactored variant).  Only `timeUTC` (parsed to epoch
milliseconds by `new Date(event.timeUTC)`) feeds the decision; `currency`
and `event` only decorate the reason string. -/
structure NewsEvent where
  timeUTC : ℚ
  deriving DecidableEq, Repr

/-- The `indicators` argument of `assessRisk`.  `atr` is `Option` because the
source guards with JS truthiness `indicators.atr && ...` (absent → skip). -/
structure Indicators where
  atr : Option ℚ
  deriving DecidableEq, Repr

/-- The `config` object of the refactored riskmap-ia.js. -/
structure AssessConfig where
  newsWindowMinutes : ℚ
  defaultRiskPct : ℚ
  reducedRiskPct : ℚ
  maxAtrThreshold : ℚ
  deriving DecidableEq, Repr

/-- Default configuration when no environment overrides are set:
`newsWindowMinutes = 30`, `defaultRiskPct = 1.0`, `reducedRiskPct = 0.5`,
`maxAtrThreshold = 150`. -/
def defaultAssessConfig : AssessConfig :=
  { newsWindowMinutes := 30
    defaultRiskPct := 1
    reducedRiskPct := 1/2
    maxAtrThreshold := 150 }

/-- Structured stand-in for the human-readable `reason` strings of the source;
each constructor corresponds to one distinct reason template and carries the
interpolated numeric datum. -/
inductive AssessReason where
  | newsDenied (diffMinutes : ℚ)
  | highVolatility
  | normalRisk
  deriving DecidableEq, Repr

/-- Return value of `assessRisk`. -/
structure RiskAssessment where
  allowed : Bool
  reason : AssessReason
  recommendedStakePct : ℚ
  deriving DecidableEq, Repr

/-- `assessRisk({signal, upcomingEvents, indicators})` of the refactored
riskmap-ia.js.  `now` is `new Date()` at the call (epoch ms).
`upcomingEvents` is `Option` (JS `undefined`/`null` when the feed produced no
list); the source guards with `if (upcomingEvents && upcomingEvents.length > 0)`
and otherwise falls through to the volatility branch, so a missing or empty
list is treated exactly like a clear calendar.  The loop denies on the first
event with `|eventTime - now| / 60000 ≤ newsWindowMinutes`.  The `signal`
argument is unused by the source and omitted. -/
def assessRisk (cfg : AssessConfig) (now : ℚ)
    (upcomingEvents : Option (List NewsEvent)) (indicators : Option Indicators) :
    RiskAssessment :=
  let events := upcomingEvents.getD []
  match events.find? (fun e => decide (|e.timeUTC - now| / 60000 ≤ cfg.newsWindowMinutes)) with
  | some e =>
      { allowed := false
        reason := .newsDenied (|e.timeUTC - now| / 60000)
        recommendedStakePct := 0 }
  | none =>
      let highVol :=
        match indicators with
        | some ind =>
            match ind.atr with
            | some a => decide (a ≠ 0) && decide (a > cfg.maxAtrThreshold)
            | none => false
        | none => false
      if highVol then
        { allowed := true, reason := .highVolatility,
          recommendedStakePct := cfg.reducedRiskPct }
      else
        { allowed := true, reason := .normalRisk,
          recommendedStakePct := cfg.defaultRiskPct }

end RiskAssess

namespace ExecIA

/-- The `tradeParams` argument of `placeTrade` (exec-ia.js, refactored
variant). -/
structure TradeOrder where
  symbol : String
  direction : String
  stake : ℚ
  expiryMinutes : ℚ
  deriving DecidableEq, Repr

/-- One element of `state.openTrades` in exec-ia.js.  Timestamps are epoch
milliseconds (the source stores ISO strings derived from them). -/
structure Trade where
  symbol : String
  direction : String
  stake : ℚ
  placedAt : ℚ
  expiryAt : ℚ
  tradeId : String
  deriving DecidableEq, Repr

/-- Outcome of the live-broker call `iqOptionClient.buy(...)`: either a trade
id or a thrown error.  The broker is an external collaborator, so its
response is a parameter of the embedding. -/
inductive BackendResult where
  | ok (id : String)
  | err
  deriving DecidableEq, Repr

/-- The trade object built at the top of `placeTrade`, before an id is
assigned. -/
def mkTrade (now : ℚ) (order : TradeOrder) (id : String) : Trade :=
  { symbol := order.symbol
    direction := order.direction
    stake := order.stake
    placedAt := now
    expiryAt := now + order.expiryMinutes * 60000
    tradeId := id }

/-- `placeTrade(tradeParams)` of exec-ia.js (refactored variant), as a
function of the open-trade set.  `backtestMode` and `connected` mirror
`config.backtestMode` and `iqOptionClient?.isConnected`; `simId` is the
generated simulation id (`sim-...`); `backend` is the live broker response.
The source performs NO duplicate-(symbol, direction) validation: on the
backtest path, and on the live path when the broker call succeeds, the trade
is pushed onto `state.openTrades` unconditionally.  Errors (`throw`) are
`Except.error`. -/
def placeTrade (backtestMode connected : Bool) (backend : BackendResult)
    (now : ℚ) (simId : String) (order : TradeOrder) (openTrades : List Trade) :
    Except String (List Trade × String) :=
  if backtestMode then
    let trade := mkTrade now order simId
    .ok (openTrades ++ [trade], simId)
  else if ¬ connected then
    .error "No conectado a IQ Option. Imposible colocar operacion real."
  else
    match backend with
    | .ok id =>
        let trade := mkTrade now order id
        .ok (openTrades ++ [trade], id)
    | .err => .error "Fallo al colocar operacion real en IQ Option."

/-- `removeTrade(tradeId)` of exec-ia.js:
`state.openTrades = state.openTrades.filter(t => t.tradeId !== tradeId)`.
The source has no failure path (it never throws), so the embedding is a total
function on the open-trade set. -/
def removeTrade (tradeId : String) (openTrades : List Trade) : List Trade :=
  openTrades.filter (fun t => t.tradeId ≠ tradeId)

end ExecIA

namespace SignalRank

/-- One secondary/primary signal entry of the `signals` argument of
`getFinalScore` (signalrank-ia.js, refactored variant).  Both fields are
optional because the source accesses them through `?.` and `|| 0`. -/
structure SubSignal where
  direction : Option String
  score : Option ℚ
  deriving DecidableEq, Repr

/-- The volatility entry: `signals.vol?.penalty || 0`. -/
structure VolSignal where
  penalty : Option ℚ
  deriving DecidableEq, Repr

/-- The `signals` object consumed by `getFinalScore`. -/
structure SignalSet where
  tech : Option SubSignal
  sent : Option SubSignal
  pred : Option SubSignal
  vol : Option VolSignal
  deriving DecidableEq, Repr

/-- What `getFinalScore` reads from each element of `openTrades`:
`trade.symbol` and `trade.direction`. -/
structure OpenTrade where
  symbol : String
  direction : String
  deriving DecidableEq, Repr

/-- The `config` object of the refactored signalrank-ia.js: per-source
weights, the volatility penalty weight, the decision threshold and the
cooldown lapse. -/
structure RankConfig where
  wTech : ℚ
  wSent : ℚ
  wPred : ℚ
  wVolPenalty : ℚ
  minSignalScore : ℚ
  cooldownMinutes : ℚ
  deriving DecidableEq, Repr

/-- Defaults when no environment overrides are set: weights 0.5/0.2/0.2,
volatility penalty weight 0.1, `minSignalScore = 0.7`,
`cooldownMinutes = 15`. -/
def defaultRankConfig : RankConfig :=
  { wTech := 1/2
    wSent := 1/5
    wPred := 1/5
    wVolPenalty := 1/10
    minSignalScore := 7/10
    cooldownMinutes := 15 }

/-- Structured stand-in for the `reason` strings of the source; each constructor
is one distinct reason template with its interpolated numeric datum. -/
inductive RankReason where
  | techHold
  | duplicateOpen
  | cooldownActive (remainingMinutes : ℚ)
  | belowThreshold (score : ℚ)
  | scored
  deriving DecidableEq, Repr

/-- Return value of `getFinalScore`. -/
structure FinalScore where
  finalScore : ℚ
  direction : String
  reason : RankReason
  deriving DecidableEq, Repr

/-- The cooldown-map key `` `${symbol}-${primaryDirection}` ``. -/
def cooldownKey (symbol primaryDirection : String) : String :=
  symbol ++ "-" ++ primaryDirection

/-- Property read `lastTradeTimes[cooldownKey]` on the plain-object cooldown
map, modelled as an association list. -/
def lookupTime (lastTradeTimes : List (String × ℚ)) (key : String) : Option ℚ :=
  (lastTradeTimes.find? (fun p => p.1 = key)).map (·.2)

/-- Steps 3–6 of `getFinalScore` (weighted score, volatility penalty, clamp
to [0,1], threshold), reached only after the dedup and cooldown guards.
The score of a secondary signal is multiplied by `-1` exactly when its direction
differs from the primary direction (`=== primaryDirection ? 1 : -1`); a
missing score contributes `0` (`?.score || 0`). -/
def weightedDecision (cfg : RankConfig) (signals : SignalSet)
    (primaryDirection : String) : FinalScore :=
  let techScore := (signals.tech.bind (·.score)).getD 0
  let sentScore :=
    (if signals.sent.bind (·.direction) = some primaryDirection then (1 : ℚ) else -1) *
      (signals.sent.bind (·.score)).getD 0
  let predScore :=
    (if signals.pred.bind (·.direction) = some primaryDirection then (1 : ℚ) else -1) *
      (signals.pred.bind (·.score)).getD 0
  let volPenalty := (signals.vol.bind (·.penalty)).getD 0
  let finalScore :=
    cfg.wTech * techScore + cfg.wSent * sentScore + cfg.wPred * predScore
      - cfg.wVolPenalty * volPenalty
  let normalizedScore := max 0 (min 1 finalScore)
  if normalizedScore < cfg.minSignalScore then
    { finalScore := normalizedScore, direction := "HOLD",
      reason := .belowThreshold normalizedScore }
  else
    { finalScore := normalizedScore, direction := primaryDirection,
      reason := .scored }

/-- `getFinalScore({signals, openTrades, lastTradeTimes, symbol})` of the
refactored signalrank-ia.js.  `now` is `Date.now()` at the call.
Guard order mirrors the source: primary-direction check, deduplication
against `openTrades`, cooldown against `lastTradeTimes` (note the JS
truthiness guard `if (lastTradeTime)`: a stored timestamp of `0` skips the
cooldown), then the weighted-scoring steps. -/
def getFinalScore (cfg : RankConfig) (now : ℚ) (signals : SignalSet)
    (openTrades : List OpenTrade) (lastTradeTimes : List (String × ℚ))
    (symbol : String) : FinalScore :=
  match signals.tech.bind (·.direction) with
  | none => { finalScore := 0, direction := "HOLD", reason := .techHold }
  | some primaryDirection =>
    if primaryDirection = "HOLD" then
      { finalScore := 0, direction := "HOLD", reason := .techHold }
    else if openTrades.any
        (fun t => t.symbol == symbol && t.direction == primaryDirection) then
      { finalScore := 0, direction := "HOLD", reason := .duplicateOpen }
    else
      match lookupTime lastTradeTimes (cooldownKey symbol primaryDirection) with
      | some lastTradeTime =>
          if lastTradeTime ≠ 0 then
            let diffMinutes := (now - lastTradeTime) / 60000
            if diffMinutes < cfg.cooldownMinutes then
              { finalScore := 0, direction := "HOLD",
                reason := .cooldownActive (cfg.cooldownMinutes - diffMinutes) }
            else weightedDecision cfg signals primaryDirection
          else weightedDecision cfg signals primaryDirection
      | none => weightedDecision cfg signals primaryDirection

end SignalRank

namespace CompoundLogic

/-- IEEE-double value model for the stake sizer, where NaN/Infinity
propagation is the substance of the safety claim.  Finite doubles are
idealised as exact rationals; NaN and the two infinities are explicit. -/
inductive JsNum where
  | nan
  | posInf
  | negInf
  | real (q : ℚ)
  deriving DecidableEq, Repr

/-- JS comparison `x <= 0` (false for NaN). -/
def jsLeZero : JsNum → Bool
  | .nan => false
  | .posInf => false
  | .negInf => true
  | .real q => decide (q ≤ 0)

/-- JS comparison `x < 0` (false for NaN). -/
def jsLtZero : JsNum → Bool
  | .nan => false
  | .posInf => false
  | .negInf => true
  | .real q => decide (q < 0)

/-- JS division `x / d` by a nonzero finite literal `d > 0`
(used for `recommendedStakePct / 100`). -/
def jsDivPos (x : JsNum) (d : ℚ) : JsNum :=
  match x with
  | .nan => .nan
  | .posInf => .posInf
  | .negInf => .negInf
  | .real q => .real (q / d)

/-- JS multiplication (used for `bankroll * (pct / 100)`): NaN absorbs;
`±Infinity × 0 = NaN`; otherwise the usual sign rules. -/
def jsMul (x y : JsNum) : JsNum :=
  match x, y with
  | .nan, _ => .nan
  | _, .nan => .nan
  | .real a, .real b => .real (a * b)
  | .posInf, .real b => if b = 0 then .nan else if b > 0 then .posInf else .negInf
  | .negInf, .real b => if b = 0 then .nan else if b > 0 then .negInf else .posInf
  | .real a, .posInf => if a = 0 then .nan else if a > 0 then .posInf else .negInf
  | .real a, .negInf => if a = 0 then .nan else if a > 0 then .negInf else .posInf
  | .posInf, .posInf => .posInf
  | .posInf, .negInf => .negInf
  | .negInf, .posInf => .negInf
  | .negInf, .negInf => .posInf

/-- `Math.min(x, m)` against a finite rational bound: NaN propagates. -/
def jsMinQ (x : JsNum) (m : ℚ) : JsNum :=
  match x with
  | .nan => .nan
  | .posInf => .real m
  | .negInf => .negInf
  | .real q => .real (min q m)

/-- `Math.max(m, x)` against a finite rational bound: NaN propagates. -/
def jsMaxQ (m : ℚ) (x : JsNum) : JsNum :=
  match x with
  | .nan => .nan
  | .posInf => .posInf
  | .negInf => .real m
  | .real q => .real (max m q)

/-- `Math.round(x * 100) / 100` (JS `Math.round` is floor of `x + 1/2`,
rounding halves toward +∞; NaN and infinities pass through). -/
def jsRound2 (x : JsNum) : JsNum :=
  match x with
  | .nan => .nan
  | .posInf => .posInf
  | .negInf => .negInf
  | .real q => .real ((⌊q * 100 + 1/2⌋ : ℤ) / (100 : ℚ))

/-- An arbitrary JS value handed to `calculateStake`: a number, or anything
whose `typeof` is not "number" (strings, objects, `null`, ...). NaN counts
as a number for `typeof`. -/
inductive JsVal where
  | num (n : JsNum)
  | nonNumber
  deriving DecidableEq, Repr

/-- The `config` object of compound-logic.js. -/
structure StakeConfig where
  defaultBankroll : ℚ
  minStakeAbsolute : ℚ
  maxStakeAbsolute : ℚ
  deriving DecidableEq, Repr

/-- Defaults when no environment overrides are set: bankroll 1000,
`minStakeAbsolute = 1`, `maxStakeAbsolute = 100`. -/
def defaultStakeConfig : StakeConfig :=
  { defaultBankroll := 1000, minStakeAbsolute := 1, maxStakeAbsolute := 100 }

/-- `calculateStake({bankroll = config.defaultBankroll, recommendedStakePct})`
of compound-logic.js.  `none` for an argument is JS `undefined` (for
`bankroll` the destructuring default then applies; for `recommendedStakePct`
the `typeof` guard throws).  The two `throw new Error(...)` sites are
`Except.error`.  Note the guards: `typeof` not "number" on `bankroll`, or `bankroll <= 0`
and likewise for `recommendedStakePct` with `< 0` —
with IEEE semantics `NaN <= 0` and `NaN < 0` are both false, so a NaN input
passes validation. -/
def calculateStake (cfg : StakeConfig) (bankroll recommendedStakePct : Option JsVal) :
    Except String JsNum :=
  let bankrollV := bankroll.getD (.num (.real cfg.defaultBankroll))
  match bankrollV with
  | .nonNumber => .error "El capital (bankroll) proporcionado no es valido"
  | .num b =>
    if jsLeZero b then
      .error "El capital (bankroll) proporcionado no es valido"
    else
      match recommendedStakePct.getD .nonNumber with
      | .nonNumber => .error "El porcentaje de riesgo recomendado no es valido"
      | .num p =>
        if jsLtZero p then
          .error "El porcentaje de riesgo recomendado no es valido"
        else
          let rawStake := jsMul b (jsDivPos p 100)
          let clampedStake := jsMaxQ cfg.minStakeAbsolute (jsMinQ rawStake cfg.maxStakeAbsolute)
          .ok (jsRound2 clampedStake)

/-- "Finite and strictly positive" for the claim about stake safety. -/
def JsNum.isFinitePositive : JsNum → Prop
  | .real q => 0 < q
  | _ => False

end CompoundLogic

namespace Automation

/-- The environment-visible outcome of one iteration of the
`runRealPhase`/`runDemoPhase` loop body in atlas-automation.js: the bot was
paused (`riskMapIA.checkStatus().isPaused`), the news window was active
(`newsFilter.getCurrentStatus().isNewsWindowActive`), `execIA.executeTrade`
threw, or the trade settled with a win/non-win result. -/
inductive TickEvent where
  | paused
  | newsActive
  | execError
  | execOk (win : Bool)
  deriving DecidableEq, Repr

/-- The fields of `systemState` in atlas-automation.js that the phase loop
touches (`errors.push` is tracked as a count). -/
structure SysState where
  operationCount : Nat
  winCount : Nat
  lossCount : Nat
  errorCount : Nat
  status : String
  deriving DecidableEq, Repr

/-- `systemState` before a phase starts. -/
def initialSysState : SysState :=
  { operationCount := 0, winCount := 0, lossCount := 0, errorCount := 0,
    status := "initializing" }

/-- The `for (let i = 0; ...)` loop of `runRealPhase`: each iteration sets
`operationCount = i + 1`; `paused` and `newsActive` hit `continue`;
a thrown `executeTrade` error propagates out of the loop (there is no
per-iteration catch), carried as `Except.error` with the state mutated so
far; a settled trade bumps `winCount`/`lossCount`
(`winCount` if `operation.result` is "win", else `lossCount`). -/
def runRealLoop (s : SysState) (i : Nat) : List TickEvent → Except SysState SysState
  | [] => .ok s
  | e :: rest =>
    let s1 := { s with operationCount := i + 1 }
    match e with
    | .paused => runRealLoop s1 (i + 1) rest
    | .newsActive => runRealLoop s1 (i + 1) rest
    | .execError => .error s1
    | .execOk true => runRealLoop { s1 with winCount := s1.winCount + 1 } (i + 1) rest
    | .execOk false => runRealLoop { s1 with lossCount := s1.lossCount + 1 } (i + 1) rest

/-- `runRealPhase` of atlas-automation.js: sets `status` to "real_running",
runs the loop, and on success finishes with `status` set to "real_completed".
Its `catch` block (the only catch between the loop body and the process
boundary) logs, sets `status` to "real_error", pushes the error onto
`systemState.errors`, and RE-THROWS (`throw error`). -/
def runRealPhase (events : List TickEvent) (s : SysState) : Except SysState SysState :=
  match runRealLoop { s with status := "real_running" } 0 events with
  | .ok s1 => .ok { s1 with status := "real_completed" }
  | .error s1 => .error { s1 with status := "real_error", errorCount := s1.errorCount + 1 }

/-- Final fate of the process under `startAutomation`. -/
inductive RunResult where
  | completed (s : SysState)
  | processExit (code : Nat) (s : SysState)
  deriving DecidableEq, Repr

/-- `startAutomation` of atlas-automation.js (real phase): its `catch`
handler logs the error and calls `process.exit(1)`. -/
def startAutomation (events : List TickEvent) (s : SysState) : RunResult :=
  match runRealPhase events s with
  | .ok s1 => .completed s1
  | .error s1 => .processExit 1 s1

end Automation

section Theorems

open RiskMap RiskAssess ExecIA SignalRank CompoundLogic Automation

/-- Claim C9: `removeTrade` is idempotent — removing a trade id twice leaves
the open-trade set exactly as removing it once does.  (The source function is
a pure `Array.filter` reassignment with no failure path, so the embedded
function is total: a second call cannot raise an error.) -/
theorem removeTrade_idempotent :
    ∀ (id : String) (ts : List ExecIA.Trade),
      removeTrade id (removeTrade id ts) = removeTrade id ts := by
  intro id ts
  induction ts with
  | nil => rfl
  | cons t ts ih =>
      by_cases h : t.tradeId = id <;> simp [removeTrade, h] at ih ⊢

/-- Claim C10: for any `result` other than the string "loss" (including
"win" and malformed values), `registerTrade` increments `tradeCount` by
exactly one, resets `lossesInRow` to `0`, and leaves every other field —
`isPaused`, `pauseUntil`, `balance`, `initialBalance`, `maxDrawdown`,
`maxDrawdownPercent` (and `maxLossStreak`) — unchanged.  In particular only
`result` equal to "loss" can grow the loss counter or trip a pause. -/
theorem registerTrade_non_loss_frame :
    ∀ (now : ℚ) (r : String) (s : RiskState), r ≠ "loss" →
      registerTrade now r s =
        { s with tradeCount := s.tradeCount + 1, lossesInRow := 0 } := by
  intro now r s h
  simp [registerTrade, h]

/-- Witness for C10 at `result = "win"` on the initial state. -/
theorem registerTrade_non_loss_frame_witness :
    registerTrade 0 "win" initialRiskState =
      { initialRiskState with tradeCount := 1, lossesInRow := 0 } := by
  have h := registerTrade_non_loss_frame 0 "win" initialRiskState (by decide)
  simpa using h

/-- Claim C4 (failing input): a NaN bankroll slips through the validation
guards (`NaN <= 0` is false in IEEE/JS semantics), propagates through
`bankroll * (pct/100)`, `Math.min`, `Math.max` and `Math.round`, and
`calculateStake` RETURNS NaN instead of throwing — contradicting the
requirement that the sizer never proposes a non-finite stake. -/
theorem calculateStake_nan_bankroll_returns_nan :
    calculateStake defaultStakeConfig (some (.num .nan)) (some (.num (.real 1)))
        = .ok .nan ∧
      ¬ JsNum.isFinitePositive .nan :=
  ⟨rfl, fun h => h⟩

/-- Claim C2 (counterexample): with an open `EURUSD/CALL` trade already in the
set, `placeTrade` for another `EURUSD/CALL` order does NOT fail — it returns
`ok` and the resulting open set holds TWO open trades for the same
`(symbol, direction)` pair.  This refutes both the per-call validation and
the at-most-one-per-pair invariant claimed for `placeTrade`. -/
theorem placeTrade_duplicate_not_rejected :
    placeTrade true false .err 0 "sim-1"
        { symbol := "EURUSD", direction := "CALL", stake := 1, expiryMinutes := 1 }
        [{ symbol := "EURUSD", direction := "CALL", stake := 1, placedAt := 0,
           expiryAt := 60000, tradeId := "t1" }]
      = .ok ([{ symbol := "EURUSD", direction := "CALL", stake := 1, placedAt := 0,
                expiryAt := 60000, tradeId := "t1" },
              { symbol := "EURUSD", direction := "CALL", stake := 1, placedAt := 0,
                expiryAt := 60000, tradeId := "sim-1" }], "sim-1") ∧
    (([{ symbol := "EURUSD", direction := "CALL", stake := 1, placedAt := 0,
         expiryAt := 60000, tradeId := "t1" },
       { symbol := "EURUSD", direction := "CALL", stake := 1, placedAt := 0,
         expiryAt := 60000, tradeId := "sim-1" }] : List ExecIA.Trade).filter
        (fun t => t.symbol == "EURUSD" && t.direction == "CALL")).length = 2 := by
  constructor
  · show Except.ok _ = _
    norm_num [placeTrade, mkTrade]
  · rfl

/-- Claim C2 (amended): `placeTrade` performs no duplicate-(symbol, direction)
validation at all.  In backtest mode — and in live mode whenever it is
connected and the broker call succeeds — it unconditionally appends the new
trade to the open set and returns its id, regardless of any matching open
trade; so `placeTrade` itself does not maintain the one-open-trade-per-pair
invariant (that check lives only upstream, in the dedup guard of the scorer). -/
theorem placeTrade_appends_unconditionally :
    (∀ (connected : Bool) (backend : BackendResult) (now : ℚ) (simId : String)
        (order : TradeOrder) (ts : List ExecIA.Trade),
      placeTrade true connected backend now simId order ts
        = .ok (ts ++ [mkTrade now order simId], simId)) ∧
    (∀ (now : ℚ) (simId id : String) (order : TradeOrder) (ts : List ExecIA.Trade),
      placeTrade false true (.ok id) now simId order ts
        = .ok (ts ++ [mkTrade now order id], id)) := by
  constructor
  · intro connected backend now simId order ts
    rfl
  · intro now simId id order ts
    rfl

/-- First-error behaviour of the phase loop: if no earlier iteration throws,
the first `executeTrade` error aborts the loop with the state accumulated so
far, and everything scheduled after it is never executed. -/
theorem runRealLoop_first_error (post : List TickEvent) :
    ∀ (pre : List TickEvent) (s : SysState) (i : Nat),
      (∀ e ∈ pre, e ≠ TickEvent.execError) →
      ∃ s1, runRealLoop s i (pre ++ TickEvent.execError :: post) = .error s1 ∧
            runRealLoop s i (pre ++ [TickEvent.execError]) = .error s1 := by
  intro pre
  induction pre with
  | nil =>
      intro s i _
      exact ⟨{ s with operationCount := i + 1 }, rfl, rfl⟩
  | cons e pre ih =>
      intro s i h
      have he : e ≠ TickEvent.execError := h e (List.mem_cons_self _ _)
      have h' : ∀ x ∈ pre, x ≠ TickEvent.execError :=
        fun x hx => h x (List.mem_cons_of_mem _ hx)
      cases e with
      | execError => exact absurd rfl he
      | paused => simpa [runRealLoop] using ih _ (i + 1) h'
      | newsActive => simpa [runRealLoop] using ih _ (i + 1) h'
      | execOk win => cases win <;> simpa [runRealLoop] using ih _ (i + 1) h'

/-- Claim C5 (counterexample): three scheduled iterations, where the second
`executeTrade` throws.  Far from being caught at the tick boundary, the error
aborts the loop (the third iteration never runs: `operationCount` stops at 2,
the win from a hypothetical third trade never lands) and `startAutomation`
terminates the process with `process.exit(1)`. -/
theorem startAutomation_tick_error_exits_process :
    startAutomation [.execOk true, .execError, .execOk true] initialSysState
      = .processExit 1
          { operationCount := 2, winCount := 1, lossCount := 0,
            errorCount := 1, status := "real_error" } := rfl

/-- Claim C5 (amended): an error raised while executing a trade inside one
iteration of the real-phase loop is NOT caught per iteration.  It propagates
out of the `for` loop, the phase-level `catch` records it
(`status` set to "real_error", error pushed) and re-throws, and the `catch` of
`startAutomation` calls `process.exit(1)` — every iteration scheduled after the failing
one is skipped (the trace beyond the first error is irrelevant to the
outcome). -/
theorem startAutomation_error_aborts_process :
    ∀ (pre post : List TickEvent) (s : SysState),
      (∀ e ∈ pre, e ≠ TickEvent.execError) →
      (∃ s1, startAutomation (pre ++ TickEvent.execError :: post) s
          = .processExit 1 s1 ∧ s1.status = "real_error") ∧
      startAutomation (pre ++ TickEvent.execError :: post) s
        = startAutomation (pre ++ [TickEvent.execError]) s := by
  intro pre post s h
  obtain ⟨s1, h1, h2⟩ :=
    runRealLoop_first_error post pre { s with status := "real_running" } 0 h
  constructor
  · exact ⟨{ s1 with status := "real_error", errorCount := s1.errorCount + 1 },
      by simp [startAutomation, runRealPhase, h1], rfl⟩
  · simp [startAutomation, runRealPhase, h1, h2]

/-- Witness for the amended C5 theorem on the concrete trace
`[execOk true] ++ execError :: [execOk true]`. -/
theorem startAutomation_error_aborts_process_witness :
    (∃ s1, startAutomation ([.execOk true] ++ TickEvent.execError :: [.execOk true])
        initialSysState = .processExit 1 s1 ∧ s1.status = "real_error") ∧
    startAutomation ([.execOk true] ++ TickEvent.execError :: [.execOk true])
        initialSysState
      = startAutomation ([.execOk true] ++ [TickEvent.execError]) initialSysState :=
  startAutomation_error_aborts_process [.execOk true] [.execOk true]
    initialSysState (by decide)

/-- Claim C3 (counterexample): starting from `initBalance 100`, the balance
sequence 90, 80, 75 realizes a drawdown of 25 against the running high-water
mark (the maximum observed balance, 100), i.e. 25% of `initialBalance`,
strictly above `MAX_DRAWDOWN_PERCENT = 20%` — yet `isPaused` remains `false`,
because the source measures each drawdown only against the immediately
preceding balance (`previousBalance - newBalance`), never against a
high-water mark. -/
theorem updateBalance_hwm_drawdown_not_paused :
    (updateBalance 0 75 (updateBalance 0 80 (updateBalance 0 90
        (initBalance 100 initialRiskState)))).isPaused = false ∧
    (initBalance 100 initialRiskState).initialBalance = 100 ∧
    max (max (max 100 90) 80) 75 - (75 : ℚ)
      > MAX_DRAWDOWN_PERCENT * (initBalance 100 initialRiskState).initialBalance := by
  refine ⟨by norm_num [updateBalance, initBalance, initialRiskState,
      MAX_DRAWDOWN_PERCENT],
    by norm_num [initBalance, initialRiskState],
    by norm_num [MAX_DRAWDOWN_PERCENT, initBalance, initialRiskState]⟩

/-- Claim C3 (amended): the drawdown breaker is stepwise, not high-water-mark
based.  For any state with a positive `initialBalance` — whatever the
loss-streak counter holds — a single `updateBalance` call whose drop from the
immediately preceding balance exceeds `MAX_DRAWDOWN_PERCENT` of
`initialBalance` sets `isPaused := true` with a one-hour `pauseUntil`; drops
that stay under the threshold at every step never pause, no matter how large
the cumulative drawdown from the high-water mark gets. -/
theorem updateBalance_step_drawdown_pauses :
    ∀ (s : RiskState) (now b : ℚ), 0 < s.initialBalance →
      (s.balance - b) / s.initialBalance > MAX_DRAWDOWN_PERCENT →
      (updateBalance now b s).isPaused = true ∧
      (updateBalance now b s).pauseUntil = some (now + 3600000) := by
  intro s now b _ h
  simp only [updateBalance]
  rw [if_pos h]
  exact ⟨rfl, rfl⟩

/-- Witness for the amended C3 theorem: a 30% single-step drop from 100 to 70
pauses for one hour. -/
theorem updateBalance_step_drawdown_pauses_witness :
    (updateBalance 0 70 (initBalance 100 initialRiskState)).isPaused = true ∧
    (updateBalance 0 70 (initBalance 100 initialRiskState)).pauseUntil
      = some 3600000 := by
  have h := updateBalance_step_drawdown_pauses (initBalance 100 initialRiskState)
    0 70 (by norm_num [initBalance, initialRiskState])
    (by norm_num [initBalance, initialRiskState, MAX_DRAWDOWN_PERCENT])
  simpa using h

/-- Claim C1 (counterexample): with the event feed unavailable (no event list
obtained, `upcomingEvents` null), `assessRisk` does NOT deny: it falls
through the `if (upcomingEvents && ...)` guard and returns
`allowed = true` with the full default stake — the gate fails OPEN, not
closed. -/
theorem assessRisk_no_feed_fails_open :
    (assessRisk defaultAssessConfig 0 none none).allowed = true ∧
    (assessRisk defaultAssessConfig 0 none none).recommendedStakePct = 1 := by
  exact ⟨rfl, rfl⟩

/-- Claim C1 (amended): `assessRisk` denies (`allowed = false`,
`recommendedStakePct = 0`) whenever the time of some upcoming high-impact event is
within ±`newsWindowMinutes` of now; but when the event feed is unavailable —
no event list at all — it treats the calendar as CLEAR and allows the trade
(fail-open), exactly as for an empty list. -/
theorem assessRisk_window_denies_no_feed_allows :
    (∀ (cfg : AssessConfig) (now : ℚ) (events : List NewsEvent)
        (inds : Option Indicators) (e : NewsEvent), e ∈ events →
        |e.timeUTC - now| / 60000 ≤ cfg.newsWindowMinutes →
        (assessRisk cfg now (some events) inds).allowed = false ∧
        (assessRisk cfg now (some events) inds).recommendedStakePct = 0) ∧
    (∀ (cfg : AssessConfig) (now : ℚ) (inds : Option Indicators),
        (assessRisk cfg now none inds).allowed = true) := by
  constructor
  · intro cfg now events inds e he hwin
    have hfind : events.find?
        (fun x => decide (|x.timeUTC - now| / 60000 ≤ cfg.newsWindowMinutes)) ≠ none := by
      intro hnone
      have := List.find?_eq_none.mp hnone e he
      simp [hwin] at this
    cases hfound : events.find?
        (fun x => decide (|x.timeUTC - now| / 60000 ≤ cfg.newsWindowMinutes)) with
    | none => exact absurd hfound hfind
    | some x =>
        constructor <;> simp [assessRisk, hfound]
  · intro cfg now inds
    cases inds with
    | none => rfl
    | some ind =>
        cases h : ind.atr with
        | none => simp [assessRisk, h]
        | some a => simp only [assessRisk, h]; split_ifs <;> rfl

/-- Witness for the amended C1 theorem: an event exactly at `now` (distance 0
minutes ≤ 30) denies, and a missing feed allows. -/
theorem assessRisk_window_denies_no_feed_allows_witness :
    ((assessRisk defaultAssessConfig 0 (some [{ timeUTC := 0 }]) none).allowed = false ∧
     (assessRisk defaultAssessConfig 0 (some [{ timeUTC := 0 }]) none).recommendedStakePct = 0) ∧
    (assessRisk defaultAssessConfig 0 none none).allowed = true :=
  ⟨assessRisk_window_denies_no_feed_allows.1 defaultAssessConfig 0
      [{ timeUTC := 0 }] none { timeUTC := 0 } (by simp)
      (by norm_num [defaultAssessConfig]),
   assessRisk_window_denies_no_feed_allows.2 defaultAssessConfig 0 none⟩

/-- Effect of one loss registration on the streak and pause fields:
the counter always increments, and the pause fields are set exactly when the
incremented counter reaches `MAX_LOSS_STREAK`. -/
theorem registerTrade_loss_fields (now : ℚ) (s : RiskState) :
    (registerTrade now "loss" s).lossesInRow = s.lossesInRow + 1 ∧
    (registerTrade now "loss" s).isPaused
      = (if s.lossesInRow + 1 ≥ MAX_LOSS_STREAK then true else s.isPaused) ∧
    (registerTrade now "loss" s).pauseUntil
      = (if s.lossesInRow + 1 ≥ MAX_LOSS_STREAK then
          some (now + PAUSE_DURATION * 60000) else s.pauseUntil) := by
  simp only [registerTrade, reduceIte]
  split_ifs <;> simp_all

/-- Claim C6: the loss-streak breaker with `MAX_LOSS_STREAK = 3`.
From an unpaused state with a zero streak, three consecutive
loss registrations pause with `pauseUntil` 15 minutes after the
third loss; a "win" resets the counter to 0; once `pauseUntil` has elapsed,
`checkStatus` unpauses, clears `pauseUntil` and resets the counter; and no
other transition exists between these two functions: `checkStatus` is the
identity while unexpired or unpaused, a loss below the streak bound keeps an
unpaused state unpaused, and `registerTrade` never unpauses a paused state. -/
theorem riskmap_loss_streak_transitions :
    ∀ (s : RiskState) (t1 t2 t3 now : ℚ) (r : String),
      (s.isPaused = false → s.lossesInRow = 0 →
        (registerTrade t3 "loss" (registerTrade t2 "loss"
            (registerTrade t1 "loss" s))).isPaused = true ∧
        (registerTrade t3 "loss" (registerTrade t2 "loss"
            (registerTrade t1 "loss" s))).pauseUntil
          = some (t3 + PAUSE_DURATION * 60000)) ∧
      (registerTrade now "win" s).lossesInRow = 0 ∧
      (s.isPaused = true → now ≥ s.pauseUntil.getD 0 →
        checkStatus now s
          = { s with isPaused := false, pauseUntil := none, lossesInRow := 0 }) ∧
      (s.isPaused = true → now < s.pauseUntil.getD 0 → checkStatus now s = s) ∧
      (s.isPaused = false → checkStatus now s = s) ∧
      (s.isPaused = false → s.lossesInRow + 1 < MAX_LOSS_STREAK →
        (registerTrade now "loss" s).isPaused = false) ∧
      (s.isPaused = true → (registerTrade now r s).isPaused = true) := by
  intro s t1 t2 t3 now r
  refine ⟨?_, ?_, ?_, ?_, ?_, ?_, ?_⟩
  · intro hp hl
    obtain ⟨l1, p1, u1⟩ := registerTrade_loss_fields t1 s
    obtain ⟨l2, p2, u2⟩ := registerTrade_loss_fields t2 (registerTrade t1 "loss" s)
    obtain ⟨l3, p3, u3⟩ := registerTrade_loss_fields t3
      (registerTrade t2 "loss" (registerTrade t1 "loss" s))
    rw [hl] at l1
    rw [l1] at l2
    rw [l2] at l3
    rw [l2] at p3 u3
    refine ⟨?_, ?_⟩
    · rw [p3]
      simp [MAX_LOSS_STREAK]
    · rw [u3]
      simp [MAX_LOSS_STREAK]
  · simp [registerTrade]
  · intro hp hexp
    simp [checkStatus, hp, hexp]
  · intro hp hlt
    simp only [checkStatus, hp, if_true]
    rw [if_neg (not_le.mpr hlt)]
  · intro hp
    simp [checkStatus, hp]
  · intro hp hlt
    obtain ⟨_, p, _⟩ := registerTrade_loss_fields now s
    rw [p, if_neg (by omega)]
    exact hp
  · intro hp
    by_cases hr : r = "loss"
    · subst hr
      obtain ⟨_, p, _⟩ := registerTrade_loss_fields now s
      rw [p]
      split_ifs <;> simp [hp]
    · simp [registerTrade, hr, hp]

/-- Witness for C6 on concrete states: the initial state for the streak/win
parts and a paused state (`pauseUntil = 5`, streak 3) for the resume parts,
checked both after expiry (`now = 7`) and before (`now = 4`). -/
theorem riskmap_loss_streak_transitions_witness :
    ((registerTrade 3 "loss" (registerTrade 2 "loss"
        (registerTrade 1 "loss" initialRiskState))).isPaused = true ∧
     (registerTrade 3 "loss" (registerTrade 2 "loss"
        (registerTrade 1 "loss" initialRiskState))).pauseUntil
       = some (3 + PAUSE_DURATION * 60000)) ∧
    (registerTrade 7 "win" initialRiskState).lossesInRow = 0 ∧
    checkStatus 7 { initialRiskState with isPaused := true, pauseUntil := some 5, lossesInRow := 3 }
      = { initialRiskState with isPaused := false, pauseUntil := none, lossesInRow := 0 } ∧
    checkStatus 4 { initialRiskState with isPaused := true, pauseUntil := some 5, lossesInRow := 3 }
      = { initialRiskState with isPaused := true, pauseUntil := some 5, lossesInRow := 3 } ∧
    checkStatus 7 initialRiskState = initialRiskState ∧
    (registerTrade 7 "loss" initialRiskState).isPaused = false ∧
    (registerTrade 7 "win" { initialRiskState with isPaused := true, pauseUntil := some 5, lossesInRow := 3 }).isPaused
      = true := by
  have hA := riskmap_loss_streak_transitions initialRiskState 1 2 3 7 "win"
  have hB := riskmap_loss_streak_transitions
    { initialRiskState with isPaused := true, pauseUntil := some 5, lossesInRow := 3 }
    1 2 3 7 "win"
  have hC := riskmap_loss_streak_transitions
    { initialRiskState with isPaused := true, pauseUntil := some 5, lossesInRow := 3 }
    1 2 3 4 "win"
  refine ⟨hA.1 rfl rfl, hA.2.1, ?_, ?_, hA.2.2.2.2.1 rfl,
    hA.2.2.2.2.2.1 rfl (by norm_num [initialRiskState, MAX_LOSS_STREAK]),
    hB.2.2.2.2.2.2 rfl⟩
  · have h3 := hB.2.2.1 rfl (by norm_num)
    simpa using h3
  · exact hC.2.2.2.1 rfl (by norm_num)

/-- Claim C7: cooldown monotonicity.  With `cooldownMinutes = 15` and a last
trade on `(EURUSD, CALL)` recorded at `t0` (any genuine timestamp, `t0 ≠ 0`;
a zero entry is skipped by the truthiness guard of the source), for any signal set
whose primary (tech) direction is CALL and any open-trade set without an open
`EURUSD/CALL` position: an evaluation at `t0 + 10min` yields HOLD with the
remaining wait (5 minutes) in the reason, while an evaluation at `t0 + 16min`
is no longer blocked by the cooldown and proceeds to the weighted-scoring
steps. -/
theorem getFinalScore_cooldown_monotonic :
    ∀ (signals : SignalSet) (openTrades : List OpenTrade) (t0 : ℚ),
      signals.tech.bind (·.direction) = some "CALL" →
      openTrades.any (fun t => t.symbol == "EURUSD" && t.direction == "CALL") = false →
      t0 ≠ 0 →
      getFinalScore defaultRankConfig (t0 + 10 * 60000) signals openTrades
          [("EURUSD-CALL", t0)] "EURUSD"
        = { finalScore := 0, direction := "HOLD",
            reason := .cooldownActive 5 } ∧
      getFinalScore defaultRankConfig (t0 + 16 * 60000) signals openTrades
          [("EURUSD-CALL", t0)] "EURUSD"
        = weightedDecision defaultRankConfig signals "CALL" := by
  intro signals openTrades t0 htech hopen ht0
  have hd1 : (t0 + 10 * 60000 - t0) / 60000 = (10 : ℚ) := by ring
  have hd2 : (t0 + 16 * 60000 - t0) / 60000 = (16 : ℚ) := by ring
  have hkey : lookupTime [("EURUSD-CALL", t0)] (cooldownKey "EURUSD" "CALL")
      = some t0 := by
    simp [lookupTime, cooldownKey]
  constructor
  · simp only [getFinalScore, htech, hopen, hkey]
    simp only [hd1]
    norm_num [defaultRankConfig, ht0]
    exact fun h => absurd h (by decide)
  · simp only [getFinalScore, htech, hopen, hkey]
    simp only [hd2]
    norm_num [defaultRankConfig, ht0]
    exact fun h => absurd h (by decide)

/-- Witness for C7 with all-CALL unit-score signals, last EURUSD-CALL trade
at `t0 = 60000`: HOLD (5 minutes left) at `t0 + 10min`, scored decision at
`t0 + 16min`. -/
theorem getFinalScore_cooldown_monotonic_witness :
    getFinalScore defaultRankConfig (60000 + 10 * 60000)
        { tech := some { direction := some "CALL", score := some 1 }, sent := some { direction := some "CALL", score := some 1 }, pred := some { direction := some "CALL", score := some 1 }, vol := some { penalty := some 0 } }
        [] [("EURUSD-CALL", 60000)] "EURUSD"
      = { finalScore := 0, direction := "HOLD",
          reason := .cooldownActive 5 } ∧
    getFinalScore defaultRankConfig (60000 + 16 * 60000)
        { tech := some { direction := some "CALL", score := some 1 }, sent := some { direction := some "CALL", score := some 1 }, pred := some { direction := some "CALL", score := some 1 }, vol := some { penalty := some 0 } }
        [] [("EURUSD-CALL", 60000)] "EURUSD"
      = weightedDecision defaultRankConfig
          { tech := some { direction := some "CALL", score := some 1 }, sent := some { direction := some "CALL", score := some 1 }, pred := some { direction := some "CALL", score := some 1 }, vol := some { penalty := some 0 } }
          "CALL" :=
  getFinalScore_cooldown_monotonic
    { tech := some { direction := some "CALL", score := some 1 }, sent := some { direction := some "CALL", score := some 1 }, pred := some { direction := some "CALL", score := some 1 }, vol := some { penalty := some 0 } }
    [] 60000 rfl rfl (by norm_num)

/-- Claim C8: when the primary (tech) direction is not HOLD and neither the
deduplication nor the cooldown guard fires, `getFinalScore` returns the clamp
to `[0,1]` of
`wTech·techScore + wSent·signedSent + wPred·signedPred − wVolPenalty·volPenalty`,
where the score of a secondary signal is negated exactly when its direction
disagrees with the primary direction; the returned direction is HOLD when the
clamped score is below `minSignalScore` and the primary direction
otherwise. -/
theorem getFinalScore_weighted_formula :
    ∀ (cfg : RankConfig) (now : ℚ) (signals : SignalSet)
      (openTrades : List OpenTrade) (lastTradeTimes : List (String × ℚ))
      (symbol primaryDirection : String),
      signals.tech.bind (·.direction) = some primaryDirection →
      primaryDirection ≠ "HOLD" →
      openTrades.any (fun t => t.symbol == symbol && t.direction == primaryDirection) = false →
      (∀ t, lookupTime lastTradeTimes (cooldownKey symbol primaryDirection) = some t →
        t ≠ 0 → ¬ ((now - t) / 60000 < cfg.cooldownMinutes)) →
      (getFinalScore cfg now signals openTrades lastTradeTimes symbol).finalScore
        = max 0 (min 1
            (cfg.wTech * ((signals.tech.bind (·.score)).getD 0)
             + cfg.wSent * ((if signals.sent.bind (·.direction) = some primaryDirection then (1 : ℚ) else -1)
                 * ((signals.sent.bind (·.score)).getD 0))
             + cfg.wPred * ((if signals.pred.bind (·.direction) = some primaryDirection then (1 : ℚ) else -1)
                 * ((signals.pred.bind (·.score)).getD 0))
             - cfg.wVolPenalty * ((signals.vol.bind (·.penalty)).getD 0))) ∧
      (getFinalScore cfg now signals openTrades lastTradeTimes symbol).direction
        = (if (getFinalScore cfg now signals openTrades lastTradeTimes symbol).finalScore
              < cfg.minSignalScore then "HOLD" else primaryDirection) := by
  intro cfg now signals openTrades ltt symbol pd htech hpd hopen hcd
  have hred : getFinalScore cfg now signals openTrades ltt symbol
      = weightedDecision cfg signals pd := by
    simp only [getFinalScore, htech, hopen]
    rw [if_neg hpd]
    cases hl : lookupTime ltt (cooldownKey symbol pd) with
    | none => simp
    | some t =>
        by_cases ht : t = 0
        · simp [ht]
        · have hnc := hcd t hl ht
          simp [ht, hnc]
  rw [hred]
  simp only [weightedDecision]
  split_ifs <;> exact ⟨rfl, rfl⟩

/-- Witness for C8: primary PUT at 0.8, sentiment disagreeing (CALL, 0.5),
no prediction signal, full volatility penalty, empty cooldown map. -/
theorem getFinalScore_weighted_formula_witness :
    (getFinalScore defaultRankConfig 0
        { tech := some { direction := some "PUT", score := some (4/5) }, sent := some { direction := some "CALL", score := some (1/2) }, pred := none, vol := some { penalty := some 1 } }
        [] [] "GBPUSD").finalScore
      = max 0 (min 1
          (defaultRankConfig.wTech * (((some { direction := some "PUT", score := some (4/5) } : Option SubSignal).bind (·.score)).getD 0)
           + defaultRankConfig.wSent * ((if (some { direction := some "CALL", score := some (1/2) } : Option SubSignal).bind (·.direction) = some "PUT" then (1 : ℚ) else -1)
               * (((some { direction := some "CALL", score := some (1/2) } : Option SubSignal).bind (·.score)).getD 0))
           + defaultRankConfig.wPred * ((if (none : Option SubSignal).bind (·.direction) = some "PUT" then (1 : ℚ) else -1)
               * (((none : Option SubSignal).bind (·.score)).getD 0))
           - defaultRankConfig.wVolPenalty * (((some { penalty := some 1 } : Option VolSignal).bind (·.penalty)).getD 0))) ∧
    (getFinalScore defaultRankConfig 0
        { tech := some { direction := some "PUT", score := some (4/5) }, sent := some { direction := some "CALL", score := some (1/2) }, pred := none, vol := some { penalty := some 1 } }
        [] [] "GBPUSD").direction
      = (if (getFinalScore defaultRankConfig 0
            { tech := some { direction := some "PUT", score := some (4/5) }, sent := some { direction := some "CALL", score := some (1/2) }, pred := none, vol := some { penalty := some 1 } }
            [] [] "GBPUSD").finalScore
          < defaultRankConfig.minSignalScore then "HOLD" else "PUT") :=
  getFinalScore_weighted_formula defaultRankConfig 0
    { tech := some { direction := some "PUT", score := some (4/5) }, sent := some { direction := some "CALL", score := some (1/2) }, pred := none, vol := some { penalty := some 1 } }
    [] [] "GBPUSD" "PUT" rfl (by decide) rfl
    (fun t ht => by simp [lookupTime] at ht)

end Theorems
